import Mathlib

/-!
Verification of the prompt-structure detector service
(`systemPromptStructureDetectorService.js`).

The JavaScript values that flow through the detector are already-parsed
JSON payloads, so we embed them as an inductive `Json` type.  JavaScript
truthiness, property lookup and the dotted-path resolver `getNestedValue`
are modelled explicitly; the detector, the consensus analyzers and the
persistence operation are translated function-by-function from the source.
External collaborators (the AI text-generation call, the ORM save) are
passed in as explicit function arguments; the number of AI invocations is
made explicit in the result so that call-count properties can be stated.
-/

/-- Shallow embedding of an already-parsed JSON value (the shape of the
`log.input` payloads the detector inspects). -/
inductive Json where
  | null
  | bool (b : Bool)
  | num (n : Int)
  | str (s : String)
  | arr (elems : List Json)
  | obj (fields : List (String × Json))

/-- JavaScript truthiness for the embedded values: `null`, `false`, `0` and
the empty string are falsy; arrays and objects are always truthy. -/
def truthy : Json → Bool
  | .null => false
  | .bool b => b
  | .num n => decide (n ≠ 0)
  | .str s => decide (s ≠ "")
  | .arr _ => true
  | .obj _ => true

/-- Property lookup on an object field list.  A later duplicate key wins,
matching the semantics of `JSON.parse`. -/
def lookupField (fields : List (String × Json)) (key : String) : Option Json :=
  fields.foldl (fun acc kv => if kv.1 = key then some kv.2 else acc) none

/-- Parse a digit string into a number (used only to model array indexing
by string key). -/
def parseNatChars (cs : List Char) : Option Nat :=
  match cs with
  | [] => none
  | _ =>
      cs.foldl (fun acc c =>
        match acc with
        | none => none
        | some n => if c.isDigit then some (n * 10 + (c.toNat - 48)) else none)
        (some 0)

/-- The JavaScript property access `value[key]` for the cases the detector
can reach: object fields by name, array elements by canonical numeric
string; every other access yields `undefined` (`none`). -/
def jsGet : Json → String → Option Json
  | .obj fields, key => lookupField fields key
  | .arr elems, key =>
      match parseNatChars key.data with
      | some i => if toString i = key then elems.get? i else none
      | none => none
  | _, _ => none

/-- One step of the reducer inside `getNestedValue`:
`current && current[key] !== undefined ? current[key] : undefined`. -/
def resolveStep (current : Option Json) (key : String) : Option Json :=
  match current with
  | some c => if truthy c then jsGet c key else none
  | none => none

/-- Resolution of an explicit key list (the result of `path.split('.')`). -/
def resolveKeys (current : Option Json) (keys : List String) : Option Json :=
  keys.foldl resolveStep current

/-- Splitting a character list on `'.'`, accumulating the current segment:
the semantics of JavaScript `path.split('.')` (in particular
`"".split('.')` is `[""]`). -/
def splitDotAux : List Char → String → List String
  | [], acc => [acc]
  | c :: rest, acc =>
      if c = '.' then acc :: splitDotAux rest ""
      else splitDotAux rest (acc.push c)

/-- `path.split('.')`. -/
def splitDot (s : String) : List String :=
  splitDotAux s.data ""

/-- `getNestedValue(obj, path)`: split the path on `.` and reduce. -/
def getNestedValue (obj : Json) (path : String) : Option Json :=
  (splitDot path).foldl resolveStep (some obj)

/-- The location descriptor returned by the matchers: where inside a log's
`input` the prompt text was found. -/
structure LocationDescriptor where
  path : String
  type : String
  field : String
  arrayIndex : Option Nat := none
  parentField : Option String := none
deriving Repr, DecidableEq

/-- One entry of the fixed candidate-pattern tables used by the nested
(object) probes. -/
structure PromptPattern where
  path : String
  field : String
  parentField : Option String := none
deriving Repr, DecidableEq

/-- Default pattern used only as the `List.getD` fallback in statements. -/
def defaultPattern : PromptPattern := ⟨"", "", none⟩

/-- The ordered candidate list probed for system prompts on object inputs. -/
def systemPatterns : List PromptPattern :=
  [ ⟨"input.options.systemMessage", "systemMessage", some "options"⟩,
    ⟨"systemMessage", "systemMessage", none⟩,
    ⟨"systemPrompt", "systemMessage", none⟩,
    ⟨"options.systemMessage", "systemMessage", some "options"⟩,
    ⟨"prompt", "prompt", none⟩,
    ⟨"system", "system", none⟩ ]

/-- The ordered candidate list probed for user prompts on object inputs. -/
def userPatterns : List PromptPattern :=
  [ ⟨"input.content", "content", some "input"⟩,
    ⟨"content", "content", none⟩,
    ⟨"userMessage", "userMessage", none⟩,
    ⟨"query", "query", none⟩,
    ⟨"text", "text", none⟩,
    ⟨"message", "message", none⟩,
    ⟨"input.query", "query", some "input"⟩,
    ⟨"input.text", "text", some "input"⟩ ]

/-- The test `value && typeof value === 'string' && value.length > 10`
applied to a resolved value. -/
def isLongString : Json → Bool
  | .str s => decide (10 < s.length)
  | _ => false

/-- The JavaScript test `typeof data === 'object'` (true for objects,
arrays and `null`). -/
def typeofObject : Json → Bool
  | .obj _ => true
  | .arr _ => true
  | .null => true
  | _ => false

/-- The per-element test of the array scans:
`item && typeof item === 'object' && item.role === role && item.content`. -/
def isRoleEntry (role : String) (item : Json) : Bool :=
  truthy item && typeofObject item &&
    (match jsGet item "role" with
     | some (.str r) => decide (r = role)
     | _ => false) &&
    (match jsGet item "content" with
     | some c => truthy c
     | none => false)

/-- The forward scan of the array branch of both matchers, carrying the
current index. -/
def findRoleInArray (role : String) : List Json → Nat → Option LocationDescriptor
  | [], _ => none
  | item :: rest, i =>
      if isRoleEntry role item then
        some { path := "[" ++ toString i ++ "].content", type := "array",
               field := "content", arrayIndex := some i, parentField := some "role" }
      else
        findRoleInArray role rest (i + 1)

/-- The ordered probe loop over a candidate-pattern table. -/
def probePatterns (data : Json) : List PromptPattern → Option LocationDescriptor
  | [] => none
  | p :: rest =>
      match getNestedValue data p.path with
      | some v =>
          if isLongString v then
            some { path := p.path, type := "nested", field := p.field,
                   arrayIndex := none, parentField := p.parentField }
          else
            probePatterns data rest
      | none => probePatterns data rest

/-- `findSystemPromptInData(data)`: array scan for a `role === "system"`
message, then the ordered nested-path probe. -/
def findSystemPromptInData (data : Json) : Option LocationDescriptor :=
  if !truthy data then none
  else
    match (match data with
           | .arr elems => findRoleInArray "system" elems 0
           | _ => none) with
    | some d => some d
    | none =>
        if typeofObject data then probePatterns data systemPatterns
        else none

/-- `findUserPromptInData(data)`: same strategy with role `"user"` and the
user candidate table. -/
def findUserPromptInData (data : Json) : Option LocationDescriptor :=
  if !truthy data then none
  else
    match (match data with
           | .arr elems => findRoleInArray "user" elems 0
           | _ => none) with
    | some d => some d
    | none =>
        if typeofObject data then probePatterns data userPatterns
        else none

/-- The grouping key `type + ":" + path` used by the consensus analyzers. -/
def structureKey (s : LocationDescriptor) : String :=
  s.type ++ ":" ++ s.path

/-- One step of building `structureCounts`: increment the entry for `key`,
appending a fresh entry (as JavaScript object insertion does) when absent. -/
def bumpCount : List (String × Nat) → String → List (String × Nat)
  | [], key => [(key, 1)]
  | (k, n) :: rest, key =>
      if k = key then (k, n + 1) :: rest
      else (k, n) :: bumpCount rest key

/-- Reading `structureCounts[key]` (0 when the key is absent, which the
source never does on the keys it enumerates). -/
def countLookup : List (String × Nat) → String → Nat
  | [], _ => 0
  | (k, n) :: rest, key => if k = key then n else countLookup rest key

/-- The source's `Object.keys(structureCounts).reduce((a, b) =>
structureCounts[a] > structureCounts[b] ? a : b)`: `none` models the
`TypeError` that `reduce` raises on an empty key set. -/
def mostCommonKeyOf (counts : List (String × Nat)) : Option String :=
  match counts.map Prod.fst with
  | [] => none
  | k :: ks =>
      some (ks.foldl (fun a b =>
        if countLookup counts b < countLookup counts a then a else b) k)

/-- `analyzeSystemPromptPattern(logsWithSystemPrompts)` after the initial
`map` onto the location descriptors: count the `(type, path)` keys in
insertion order, reduce to the most common key, and return the first
descriptor carrying that key. -/
def analyzeSystemPromptPattern (structures : List LocationDescriptor) :
    Option LocationDescriptor :=
  let structureCounts :=
    structures.foldl (fun acc s => bumpCount acc (structureKey s)) []
  match mostCommonKeyOf structureCounts with
  | none => none
  | some key => structures.find? (fun s => structureKey s == key)

/-- `analyzeUserPromptPattern(logsWithUserPrompts)` after the initial `map`:
the source duplicates the body of the system analyzer verbatim. -/
def analyzeUserPromptPattern (structures : List LocationDescriptor) :
    Option LocationDescriptor :=
  let structureCounts :=
    structures.foldl (fun acc s => bumpCount acc (structureKey s)) []
  match mostCommonKeyOf structureCounts with
  | none => none
  | some key => structures.find? (fun s => structureKey s == key)

/-- The detection result record (the `structure` field is renamed
`structure'` because `structure` is a Lean keyword). -/
structure DetectionResult where
  structure' : Option LocationDescriptor
  confidence : ℚ
  reasoning : String
  promptType : Option String
deriving Repr, DecidableEq

/-- One recorded model invocation; only its `input` field is read. -/
structure ModelLog where
  input : Json

/-- The model record: `systemPromptStructure` plus an opaque remainder
(`modelId`) standing for every other field, untouched by the service. -/
structure Model where
  systemPromptStructure : Option LocationDescriptor := none
  modelId : Nat := 0
deriving Repr, DecidableEq

/-- One entry of the `analysisData` array built by the orchestrator. -/
structure AnalysisData where
  logIndex : Nat
  input : Json
  hasSystemPrompt : Bool
  hasUserPrompt : Bool
  systemPromptLocation : Option LocationDescriptor
  userPromptLocation : Option LocationDescriptor

/-- The first pass of the orchestrator on one sampled log: try the system
matcher, and only when it fails try the user matcher. -/
def mkAnalysisData (i : Nat) (log : ModelLog) : AnalysisData :=
  match findSystemPromptInData log.input with
  | some s =>
      { logIndex := i, input := log.input, hasSystemPrompt := true,
        hasUserPrompt := false, systemPromptLocation := some s,
        userPromptLocation := none }
  | none =>
      match findUserPromptInData log.input with
      | some u =>
          { logIndex := i, input := log.input, hasSystemPrompt := false,
            hasUserPrompt := true, systemPromptLocation := none,
            userPromptLocation := some u }
      | none =>
          { logIndex := i, input := log.input, hasSystemPrompt := false,
            hasUserPrompt := false, systemPromptLocation := none,
            userPromptLocation := none }

/-- `sampleLogs.map((log, index) => ...)` with its running index. -/
def buildAnalysisData : Nat → List ModelLog → List AnalysisData
  | _, [] => []
  | i, log :: rest => mkAnalysisData i log :: buildAnalysisData (i + 1) rest

/-- The record produced by the orchestrator's catch-all handler. -/
def errorResult (msg : String) : DetectionResult :=
  { structure' := none, confidence := 0,
    reasoning := "Error during detection: " ++ msg, promptType := none }

/-- `detectSystemPromptStructure(logs, model)`.  The external AI
collaborator is the argument `ai`, receiving the `{logIndex, input}`
payload the source serializes into its user message; its `Except` result
covers both a throwing call and an unparseable response, with the error
message as the `error` payload.  The second component of the result counts
how many times the collaborator was invoked. -/
def detectSystemPromptStructure (logs : List ModelLog) (model : Model)
    (ai : List (Nat × Json) → Except String DetectionResult) :
    DetectionResult × Nat :=
  let sampleLogs := logs.take 3
  let analysisData := buildAnalysisData 0 sampleLogs
  let logsWithSystemPrompts := analysisData.filter (·.hasSystemPrompt)
  if 2 ≤ logsWithSystemPrompts.length then
    ({ structure' := analyzeSystemPromptPattern
         (logsWithSystemPrompts.filterMap (·.systemPromptLocation)),
       confidence := 0.9,
       reasoning := "Detected consistent system prompt structure across "
         ++ toString logsWithSystemPrompts.length ++ " logs",
       promptType := some "system" }, 0)
  else
    let logsWithUserPrompts := analysisData.filter (·.hasUserPrompt)
    if 2 ≤ logsWithUserPrompts.length then
      ({ structure' := analyzeUserPromptPattern
           (logsWithUserPrompts.filterMap (·.userPromptLocation)),
         confidence := 0.8,
         reasoning := "Detected consistent user prompt structure across "
           ++ toString logsWithUserPrompts.length
           ++ " logs (no system prompt found)",
         promptType := some "user" }, 0)
    else
      match ai (analysisData.map (fun d => (d.logIndex, d.input))) with
      | .ok r => (r, 1)
      | .error e => (errorResult e, 1)

/-- `updateModelSystemPromptStructure(model, structure)`: assign the field,
then call the external `save`.  The first component is what the function
returns or rethrows; the second component is the in-memory model object
after the call (the assignment happens before `save` and is never rolled
back). -/
def updateModelSystemPromptStructure (model : Model)
    (structure' : Option LocationDescriptor)
    (save : Model → Except String Unit) : Except String Model × Model :=
  let m := { model with systemPromptStructure := structure' }
  match save m with
  | .ok _ => (.ok m, m)
  | .error e => (.error e, m)

/-! ### Specification-side definitions

These definitions follow the wording of the specification (sampled logs,
match sets, consensus, insertion-order tie-break); the theorems below
compare the translated source against them. -/

/-- The system-prompt locations of the sampled logs, in order (the spec's
"has system match" set). -/
def sampleSystemLocations (logs : List ModelLog) : List LocationDescriptor :=
  (logs.take 3).filterMap (fun l => findSystemPromptInData l.input)

/-- The user-prompt location of one log, probed only when the system
matcher found nothing for that log. -/
def userLocationOf (l : ModelLog) : Option LocationDescriptor :=
  match findSystemPromptInData l.input with
  | some _ => none
  | none => findUserPromptInData l.input

/-- The user-prompt locations of the sampled logs (the spec's "has user
match" set). -/
def sampleUserLocations (logs : List ModelLog) : List LocationDescriptor :=
  (logs.take 3).filterMap userLocationOf

/-- The sampled logs' inputs paired with their indices: the payload handed
to the external text-generation collaborator. -/
def indexedInputs : Nat → List ModelLog → List (Nat × Json)
  | _, [] => []
  | i, l :: rest => (i, l.input) :: indexedInputs (i + 1) rest

/-- The analysis payload the orchestrator serializes for the AI fallback. -/
def detectPayload (logs : List ModelLog) : List (Nat × Json) :=
  indexedInputs 0 (logs.take 3)

/-- Modelled from the spec's orchestrator contract (section 4.4): sample
the first `min(3, len)` logs, return the system consensus at confidence
0.9 when at least two sampled logs have a system match, else the user
consensus at confidence 0.8 when at least two have a user match, else the
external collaborator's answer (or the zero-confidence failure record). -/
def detectSystemPromptStructureSpec (logs : List ModelLog)
    (ai : List (Nat × Json) → Except String DetectionResult) :
    DetectionResult × Nat :=
  if 2 ≤ (sampleSystemLocations logs).length then
    ({ structure' := analyzeSystemPromptPattern (sampleSystemLocations logs),
       confidence := 0.9,
       reasoning := "Detected consistent system prompt structure across "
         ++ toString (sampleSystemLocations logs).length ++ " logs",
       promptType := some "system" }, 0)
  else if 2 ≤ (sampleUserLocations logs).length then
    ({ structure' := analyzeUserPromptPattern (sampleUserLocations logs),
       confidence := 0.8,
       reasoning := "Detected consistent user prompt structure across "
         ++ toString (sampleUserLocations logs).length
         ++ " logs (no system prompt found)",
       promptType := some "user" }, 0)
  else
    match ai (detectPayload logs) with
    | .ok r => (r, 1)
    | .error e => (errorResult e, 1)

/-- The keys of a list in first-seen (insertion) order, given the keys
already seen: the order in which a JavaScript object accumulates them. -/
def firstSeenKeys (seen : List String) : List String → List String
  | [] => []
  | k :: rest =>
      if k ∈ seen then firstSeenKeys seen rest
      else k :: firstSeenKeys (k :: seen) rest

/-- The greatest count attained on a key list. -/
def maxCountVal (cnt : String → Nat) (keys : List String) : Nat :=
  keys.foldr (fun k m => max (cnt k) m) 0

/-- The last key of `keys` whose count is maximal: the tie-break the
reduce in the source actually implements. -/
def lastMaximal (cnt : String → Nat) (keys : List String) : Option String :=
  (keys.filter (fun k => cnt k == maxCountVal cnt keys)).getLast?

/-- Whether one candidate pattern succeeds on `data`: its path resolves to
a string strictly longer than 10 characters. -/
def patternQualifies (data : Json) (p : PromptPattern) : Bool :=
  match getNestedValue data p.path with
  | some (.str s) => decide (10 < s.length)
  | _ => false

/-- The nested-type descriptor built from a successful pattern. -/
def nestedDescriptor (p : PromptPattern) : LocationDescriptor :=
  { path := p.path, type := "nested", field := p.field,
    arrayIndex := none, parentField := p.parentField }

/-! ### Bridge lemmas between the orchestrator and its specification -/

theorem filter_sys_filterMap (i : Nat) (logs : List ModelLog) :
    ((buildAnalysisData i logs).filter (·.hasSystemPrompt)).filterMap
        (·.systemPromptLocation)
      = logs.filterMap (fun l => findSystemPromptInData l.input) := by
  induction logs generalizing i with
  | nil => simp [buildAnalysisData]
  | cons l rest ih =>
      simp only [buildAnalysisData, mkAnalysisData, List.filterMap_cons]
      cases hs : findSystemPromptInData l.input with
      | some s => simpa [List.filter, List.filterMap] using ih (i + 1)
      | none =>
          cases hu : findUserPromptInData l.input with
          | some u => simpa [List.filter, List.filterMap] using ih (i + 1)
          | none => simpa [List.filter, List.filterMap] using ih (i + 1)

theorem filter_sys_length (i : Nat) (logs : List ModelLog) :
    ((buildAnalysisData i logs).filter (·.hasSystemPrompt)).length
      = (logs.filterMap (fun l => findSystemPromptInData l.input)).length := by
  induction logs generalizing i with
  | nil => simp [buildAnalysisData]
  | cons l rest ih =>
      simp only [buildAnalysisData, mkAnalysisData, List.filterMap_cons]
      cases hs : findSystemPromptInData l.input with
      | some s => simpa [List.filter, List.filterMap] using ih (i + 1)
      | none =>
          cases hu : findUserPromptInData l.input with
          | some u => simpa [List.filter, List.filterMap] using ih (i + 1)
          | none => simpa [List.filter, List.filterMap] using ih (i + 1)

theorem filter_user_filterMap (i : Nat) (logs : List ModelLog) :
    ((buildAnalysisData i logs).filter (·.hasUserPrompt)).filterMap
        (·.userPromptLocation)
      = logs.filterMap userLocationOf := by
  induction logs generalizing i with
  | nil => simp [buildAnalysisData]
  | cons l rest ih =>
      simp only [buildAnalysisData, mkAnalysisData, List.filterMap_cons]
      cases hs : findSystemPromptInData l.input with
      | some s => simpa [List.filter, List.filterMap, userLocationOf, hs] using ih (i + 1)
      | none =>
          cases hu : findUserPromptInData l.input with
          | some u =>
              simpa [List.filter, List.filterMap, userLocationOf, hs, hu] using ih (i + 1)
          | none =>
              simpa [List.filter, List.filterMap, userLocationOf, hs, hu] using ih (i + 1)

theorem filter_user_length (i : Nat) (logs : List ModelLog) :
    ((buildAnalysisData i logs).filter (·.hasUserPrompt)).length
      = (logs.filterMap userLocationOf).length := by
  induction logs generalizing i with
  | nil => simp [buildAnalysisData]
  | cons l rest ih =>
      simp only [buildAnalysisData, mkAnalysisData, List.filterMap_cons]
      cases hs : findSystemPromptInData l.input with
      | some s => simpa [List.filter, List.filterMap, userLocationOf, hs] using ih (i + 1)
      | none =>
          cases hu : findUserPromptInData l.input with
          | some u =>
              simpa [List.filter, List.filterMap, userLocationOf, hs, hu] using ih (i + 1)
          | none =>
              simpa [List.filter, List.filterMap, userLocationOf, hs, hu] using ih (i + 1)

theorem map_payload (i : Nat) (logs : List ModelLog) :
    (buildAnalysisData i logs).map (fun d => (d.logIndex, d.input))
      = indexedInputs i logs := by
  induction logs generalizing i with
  | nil => simp [buildAnalysisData, indexedInputs]
  | cons l rest ih =>
      simp only [buildAnalysisData, mkAnalysisData, indexedInputs, List.map_cons]
      cases hs : findSystemPromptInData l.input with
      | some s => simpa using ih (i + 1)
      | none =>
          cases hu : findUserPromptInData l.input with
          | some u => simpa using ih (i + 1)
          | none => simpa using ih (i + 1)

theorem detect_eq_spec (logs : List ModelLog) (model : Model)
    (ai : List (Nat × Json) → Except String DetectionResult) :
    detectSystemPromptStructure logs model ai
      = detectSystemPromptStructureSpec logs ai := by
  have h1 := filter_sys_filterMap 0 (logs.take 3)
  have h2 := filter_sys_length 0 (logs.take 3)
  have h3 := filter_user_filterMap 0 (logs.take 3)
  have h4 := filter_user_length 0 (logs.take 3)
  have h5 := map_payload 0 (logs.take 3)
  simp only [detectSystemPromptStructure, detectSystemPromptStructureSpec,
    sampleSystemLocations, sampleUserLocations, detectPayload,
    h1, h2, h3, h4, h5]

theorem detect_take3 (logs : List ModelLog) (model : Model)
    (ai : List (Nat × Json) → Except String DetectionResult) :
    detectSystemPromptStructure logs model ai
      = detectSystemPromptStructure (logs.take 3) model ai := by
  simp only [detectSystemPromptStructure, List.take_take, min_self]

/-! ### Orchestrator claims -/

/-- C2: `detect(logs, model)` examines only the first `min(3, len(logs))`
logs, and refines the spec's orchestrator: at least 2 sampled system
matches give the system consensus at confidence exactly 0.9 with
`promptType "system"`; otherwise at least 2 user matches give the user
consensus at confidence exactly 0.8 with `promptType "user"`; system
consensus takes priority. -/
theorem detectSystemPromptStructure_consensus (logs : List ModelLog)
    (model : Model) (ai : List (Nat × Json) → Except String DetectionResult) :
    detectSystemPromptStructure logs model ai
        = detectSystemPromptStructureSpec logs ai ∧
    detectSystemPromptStructure logs model ai
        = detectSystemPromptStructure (logs.take 3) model ai :=
  ⟨detect_eq_spec logs model ai, detect_take3 logs model ai⟩

/-- C3: the orchestrator never propagates an exception.  When the external
collaborator (or the parse of its response) fails with `msg`, either the
orchestrator never consulted it (a local consensus was returned, zero AI
invocations), or the result is exactly the caught-error record
`{structure: null, confidence: 0, reasoning: "Error during detection:
<msg>", promptType: null}`. -/
theorem detectSystemPromptStructure_never_throws (logs : List ModelLog)
    (model : Model) (ai : List (Nat × Json) → Except String DetectionResult)
    (msg : String) (h : ai (detectPayload logs) = .error msg) :
    (detectSystemPromptStructure logs model ai).2 = 0 ∨
    (detectSystemPromptStructure logs model ai).1 = errorResult msg := by
  rw [detect_eq_spec]
  unfold detectSystemPromptStructureSpec
  split
  · exact Or.inl rfl
  · split
    · exact Or.inl rfl
    · rw [h]
      exact Or.inr rfl

/-- Witness for C3 at concrete input: no logs, a throwing collaborator. -/
theorem detectSystemPromptStructure_never_throws_witness :
    (detectSystemPromptStructure [] ⟨none, 0⟩
        (fun _ => Except.error "boom")).2 = 0 ∨
    (detectSystemPromptStructure [] ⟨none, 0⟩
        (fun _ => Except.error "boom")).1 = errorResult "boom" :=
  detectSystemPromptStructure_never_throws [] ⟨none, 0⟩
    (fun _ => Except.error "boom") "boom" rfl

/-- C4: when neither local consensus branch applies, the orchestrator
invokes the external collaborator exactly once (the invocation count is 1)
and returns its parsed structured output unmodified. -/
theorem detectSystemPromptStructure_ai_fallback (logs : List ModelLog)
    (model : Model) (ai : List (Nat × Json) → Except String DetectionResult)
    (r : DetectionResult)
    (h1 : (sampleSystemLocations logs).length < 2)
    (h2 : (sampleUserLocations logs).length < 2)
    (h3 : ai (detectPayload logs) = .ok r) :
    detectSystemPromptStructure logs model ai = (r, 1) := by
  rw [detect_eq_spec]
  unfold detectSystemPromptStructureSpec
  rw [if_neg (by omega), if_neg (by omega), h3]

/-- Witness for C4 at concrete input: no logs, hence no local matches, and
a collaborator answering a fixed structured result. -/
theorem detectSystemPromptStructure_ai_fallback_witness :
    (sampleSystemLocations []).length < 2 ∧
    (sampleUserLocations []).length < 2 ∧
    detectSystemPromptStructure [] ⟨none, 0⟩
        (fun _ => Except.ok ⟨none, 0.5, "llm answer", some "user"⟩)
      = (⟨none, 0.5, "llm answer", some "user"⟩, 1) :=
  ⟨by decide, by decide,
    detectSystemPromptStructure_ai_fallback [] ⟨none, 0⟩
      (fun _ => Except.ok ⟨none, 0.5, "llm answer", some "user"⟩)
      ⟨none, 0.5, "llm answer", some "user"⟩
      (by decide) (by decide) rfl⟩

/-- C10: the detection result does not depend on the model argument: with
the collaborator fixed, any two model values yield equal results, because
the function never reads its model parameter. -/
theorem detectSystemPromptStructure_model_independent (logs : List ModelLog)
    (ai : List (Nat × Json) → Except String DetectionResult)
    (m1 m2 : Model) :
    detectSystemPromptStructure logs m1 ai
      = detectSystemPromptStructure logs m2 ai := rfl

/-! ### Pattern-matcher claims -/

theorem findRoleInArray_first (role : String) (items : List Json)
    (start i : Nat) (h : i < items.length)
    (hi : isRoleEntry role (items.getD i Json.null) = true)
    (hmin : ∀ j, j < i → isRoleEntry role (items.getD j Json.null) = false) :
    findRoleInArray role items start
      = some { path := "[" ++ toString (start + i) ++ "].content",
               type := "array", field := "content", arrayIndex := some (start + i),
               parentField := some "role" } := by
  induction items generalizing start i with
  | nil => simp at h
  | cons item rest ih =>
      cases i with
      | zero =>
          have hi' : isRoleEntry role item = true := by simpa using hi
          simp [findRoleInArray, hi']
      | succ i' =>
          have h0 : isRoleEntry role item = false := by
            simpa using hmin 0 (Nat.succ_pos i')
          have hlen : i' < rest.length := by
            simp only [List.length_cons] at h
            omega
          have hstep := ih (start + 1) i' hlen
            (by simpa using hi)
            (fun j hj => by simpa using hmin (j + 1) (by omega))
          simp only [findRoleInArray, h0, Bool.false_eq_true, if_false]
          rw [show start + (i' + 1) = start + 1 + i' from by omega]
          exact hstep

/-- C5: on an array input, if index `i` is the first whose element is an
object with `role === "system"` and truthy (non-empty) `content`, the
system matcher returns exactly the descriptor
`{path: "[i].content", type: "array", field: "content", arrayIndex: i,
parentField: "role"}`. -/
theorem findSystemPromptInData_array_first_match (items : List Json)
    (i : Nat) (h : i < items.length)
    (hi : isRoleEntry "system" (items.getD i Json.null) = true)
    (hmin : ∀ j, j < i → isRoleEntry "system" (items.getD j Json.null) = false) :
    findSystemPromptInData (Json.arr items)
      = some { path := "[" ++ toString i ++ "].content", type := "array",
               field := "content", arrayIndex := some i,
               parentField := some "role" } := by
  have hs := findRoleInArray_first "system" items 0 i h hi hmin
  simp only [Nat.zero_add] at hs
  simp [findSystemPromptInData, truthy, hs]

/-- Witness for C5: a two-element array whose second element is the first
system message. -/
theorem findSystemPromptInData_array_first_match_witness :
    1 < ([Json.str "hi", Json.obj [("role", Json.str "system"),
          ("content", Json.str "be very nice")]] : List Json).length ∧
    findSystemPromptInData (Json.arr [Json.str "hi",
        Json.obj [("role", Json.str "system"), ("content", Json.str "be very nice")]])
      = some { path := "[1].content", type := "array", field := "content",
               arrayIndex := some 1, parentField := some "role" } :=
  ⟨by decide,
    findSystemPromptInData_array_first_match
      [Json.str "hi", Json.obj [("role", Json.str "system"),
        ("content", Json.str "be very nice")]] 1
      (by decide) (by decide) (by decide)⟩

theorem probePatterns_cons (data : Json) (p : PromptPattern)
    (rest : List PromptPattern) :
    probePatterns data (p :: rest)
      = if patternQualifies data p then some (nestedDescriptor p)
        else probePatterns data rest := by
  simp only [probePatterns, patternQualifies, nestedDescriptor]
  cases hv : getNestedValue data p.path with
  | none => simp
  | some v => cases v <;> simp [isLongString]

theorem probePatterns_first (data : Json) (pats : List PromptPattern)
    (i : Nat) (h : i < pats.length)
    (hi : patternQualifies data (pats.getD i defaultPattern) = true)
    (hmin : ∀ j, j < i →
      patternQualifies data (pats.getD j defaultPattern) = false) :
    probePatterns data pats
      = some (nestedDescriptor (pats.getD i defaultPattern)) := by
  induction pats generalizing i with
  | nil => simp at h
  | cons p rest ih =>
      rw [probePatterns_cons]
      cases i with
      | zero =>
          have hp : patternQualifies data p = true := by simpa using hi
          rw [hp]
          simp
      | succ i' =>
          have hp : patternQualifies data p = false := by
            simpa using hmin 0 (Nat.succ_pos i')
          have hlen : i' < rest.length := by
            simp only [List.length_cons] at h
            omega
          rw [hp]
          simpa using ih i' hlen (by simpa using hi)
            (fun j hj => by simpa using hmin (j + 1) (by omega))

theorem probePatterns_none (data : Json) (pats : List PromptPattern)
    (h : ∀ p ∈ pats, patternQualifies data p = false) :
    probePatterns data pats = none := by
  induction pats with
  | nil => rfl
  | cons p rest ih =>
      rw [probePatterns_cons, h p (List.mem_cons_self p rest)]
      simpa using ih (fun q hq => h q (List.mem_cons_of_mem p hq))

theorem findSystemPromptInData_obj (fields : List (String × Json)) :
    findSystemPromptInData (Json.obj fields)
      = probePatterns (Json.obj fields) systemPatterns := by
  simp [findSystemPromptInData, truthy, typeofObject]

/-- C6: on an object input (where the array branch cannot match), the
system matcher probes the six dotted paths in their fixed order: when the
pattern at position `i` is the first whose resolved value is a string of
length strictly greater than 10, it returns that pattern's
`type: "nested"` descriptor, and when no pattern qualifies it returns no
match. -/
theorem findSystemPromptInData_object_probe_order :
    (∀ (fields : List (String × Json)) (i : Nat),
      i < systemPatterns.length →
      patternQualifies (Json.obj fields)
          (systemPatterns.getD i defaultPattern) = true →
      (∀ j, j < i → patternQualifies (Json.obj fields)
          (systemPatterns.getD j defaultPattern) = false) →
      findSystemPromptInData (Json.obj fields)
        = some (nestedDescriptor (systemPatterns.getD i defaultPattern))) ∧
    (∀ fields : List (String × Json),
      (∀ p ∈ systemPatterns,
        patternQualifies (Json.obj fields) p = false) →
      findSystemPromptInData (Json.obj fields) = none) :=
  ⟨fun fields i h hi hmin => by
      rw [findSystemPromptInData_obj]
      exact probePatterns_first (Json.obj fields) systemPatterns i h hi hmin,
   fun fields h => by
      rw [findSystemPromptInData_obj]
      exact probePatterns_none (Json.obj fields) systemPatterns h⟩

/-- Witness for C6: an object carrying `systemMessage` (second pattern,
first being unresolvable) matches; the empty object matches nothing. -/
theorem findSystemPromptInData_object_probe_order_witness :
    findSystemPromptInData
        (Json.obj [("systemMessage", Json.str "a long system prompt")])
      = some { path := "systemMessage", type := "nested",
               field := "systemMessage", arrayIndex := none,
               parentField := none } ∧
    findSystemPromptInData (Json.obj []) = none :=
  ⟨findSystemPromptInData_object_probe_order.1
      [("systemMessage", Json.str "a long system prompt")] 1
      (by decide) (by decide) (by decide),
   findSystemPromptInData_object_probe_order.2 [] (by decide)⟩

theorem resolveKeys_none_start (keys : List String) :
    resolveKeys none keys = none := by
  induction keys with
  | nil => rfl
  | cons k rest ih => simpa [resolveKeys, resolveStep] using ih

/-- C7: dotted-path resolution is a total function (it never throws in the
embedding); it resolves `"a.b.c"` against `{a: {b: {c: "x"}}}` to `"x"`
and against `{a: {b: {}}}` to no value; it proceeds key by key from the
left, and once a prefix of the key list resolves to no value every
extension of the path also resolves to no value. -/
theorem getNestedValue_total_left_to_right :
    getNestedValue
        (Json.obj [("a", Json.obj [("b", Json.obj [("c", Json.str "x")])])])
        "a.b.c" = some (Json.str "x") ∧
    getNestedValue (Json.obj [("a", Json.obj [("b", Json.obj [])])]) "a.b.c"
      = none ∧
    (∀ (obj : Json) (path : String),
      getNestedValue obj path = resolveKeys (some obj) (splitDot path)) ∧
    (∀ (data : Json) (keys rest : List String),
      resolveKeys (some data) keys = none →
      resolveKeys (some data) (keys ++ rest) = none) :=
  ⟨rfl, rfl, fun _ _ => rfl,
   fun data keys rest h => by
     show (keys ++ rest).foldl resolveStep (some data) = none
     rw [List.foldl_append]
     rw [show keys.foldl resolveStep (some data) = none from h]
     exact resolveKeys_none_start rest⟩

/-- Witness for C7: a failed prefix kills the extended path. -/
theorem getNestedValue_total_left_to_right_witness :
    resolveKeys (some (Json.obj [])) ["a"] = none ∧
    resolveKeys (some (Json.obj [])) (["a"] ++ ["b"]) = none :=
  ⟨rfl, getNestedValue_total_left_to_right.2.2.2 (Json.obj []) ["a"] ["b"] rfl⟩

/-! ### Persistence claims -/

/-- C8: the persistence operation assigns the structure onto the model,
invokes the external save, and returns the updated model (other fields
untouched); when the save fails, the underlying error propagates
unchanged. -/
theorem updateModelSystemPromptStructure_spec (model : Model)
    (structure' : Option LocationDescriptor)
    (save : Model → Except String Unit) :
    (save { model with systemPromptStructure := structure' } = .ok () →
      updateModelSystemPromptStructure model structure' save
        = (.ok { model with systemPromptStructure := structure' },
           { model with systemPromptStructure := structure' })) ∧
    (∀ e, save { model with systemPromptStructure := structure' } = .error e →
      updateModelSystemPromptStructure model structure' save
        = (.error e, { model with systemPromptStructure := structure' })) := by
  constructor
  · intro h
    simp only [updateModelSystemPromptStructure]
    rw [h]
  · intro e h
    simp only [updateModelSystemPromptStructure]
    rw [h]

/-- Witness for C8: a successful and a failing save on a concrete model. -/
theorem updateModelSystemPromptStructure_spec_witness :
    updateModelSystemPromptStructure ⟨none, 7⟩
        (some ⟨"systemMessage", "nested", "systemMessage", none, none⟩)
        (fun _ => .ok ())
      = (.ok ⟨some ⟨"systemMessage", "nested", "systemMessage", none, none⟩, 7⟩,
         ⟨some ⟨"systemMessage", "nested", "systemMessage", none, none⟩, 7⟩) ∧
    updateModelSystemPromptStructure ⟨none, 7⟩
        (some ⟨"systemMessage", "nested", "systemMessage", none, none⟩)
        (fun _ => .error "db down")
      = (.error "db down",
         ⟨some ⟨"systemMessage", "nested", "systemMessage", none, none⟩, 7⟩) :=
  ⟨(updateModelSystemPromptStructure_spec ⟨none, 7⟩
      (some ⟨"systemMessage", "nested", "systemMessage", none, none⟩)
      (fun _ => .ok ())).1 rfl,
   (updateModelSystemPromptStructure_spec ⟨none, 7⟩
      (some ⟨"systemMessage", "nested", "systemMessage", none, none⟩)
      (fun _ => .error "db down")).2 "db down" rfl⟩

/-- C9: the persistence operation is not atomic on error: when the save
throws, the error propagates but the in-memory model already carries the
new structure, with no rollback. -/
theorem updateModelSystemPromptStructure_not_atomic (model : Model)
    (structure' : Option LocationDescriptor)
    (save : Model → Except String Unit) (e : String)
    (h : save { model with systemPromptStructure := structure' } = .error e) :
    (updateModelSystemPromptStructure model structure' save).1 = .error e ∧
    ((updateModelSystemPromptStructure model structure' save).2).systemPromptStructure
      = structure' := by
  simp only [updateModelSystemPromptStructure]
  rw [h]
  exact ⟨rfl, rfl⟩

/-- Witness for C9 on a concrete model and failing save. -/
theorem updateModelSystemPromptStructure_not_atomic_witness :
    (updateModelSystemPromptStructure ⟨none, 7⟩
        (some ⟨"prompt", "nested", "prompt", none, none⟩)
        (fun _ => .error "db down")).1 = .error "db down" ∧
    ((updateModelSystemPromptStructure ⟨none, 7⟩
        (some ⟨"prompt", "nested", "prompt", none, none⟩)
        (fun _ => .error "db down")).2).systemPromptStructure
      = some ⟨"prompt", "nested", "prompt", none, none⟩ :=
  updateModelSystemPromptStructure_not_atomic ⟨none, 7⟩
    (some ⟨"prompt", "nested", "prompt", none, none⟩)
    (fun _ => .error "db down") "db down" rfl

/-! ### Consensus analyzer: counting and tie-break machinery -/

theorem bumpCount_keys (c : List (String × Nat)) (key : String) :
    (bumpCount c key).map Prod.fst
      = if key ∈ c.map Prod.fst then c.map Prod.fst
        else c.map Prod.fst ++ [key] := by
  induction c with
  | nil => simp [bumpCount]
  | cons kv rest ih =>
      obtain ⟨k, n⟩ := kv
      by_cases hk : k = key
      · simp [bumpCount, hk]
      · simp only [bumpCount, if_neg hk, List.map_cons, ih]
        by_cases hm : key ∈ rest.map Prod.fst
        · rw [if_pos hm, if_pos (List.mem_cons_of_mem _ hm)]
        · rw [if_neg hm, if_neg ?_]
          · simp
          · intro hmem
            rcases List.mem_cons.mp hmem with h1 | h2
            · exact hk h1.symm
            · exact hm h2

theorem countLookup_bumpCount (c : List (String × Nat)) (key k : String) :
    countLookup (bumpCount c key) k
      = countLookup c k + (if k = key then 1 else 0) := by
  induction c with
  | nil =>
      simp only [bumpCount, countLookup]
      by_cases hk : k = key
      · subst hk
        simp
      · rw [if_neg (fun hh => hk hh.symm), if_neg hk]
  | cons kv rest ih =>
      obtain ⟨k0, n⟩ := kv
      simp only [bumpCount, countLookup]
      by_cases h0 : k0 = key
      · rw [if_pos h0]
        simp only [countLookup]
        by_cases hk : k0 = k
        · rw [if_pos hk, if_pos hk, if_pos (by rw [← hk, h0])]
        · rw [if_neg hk, if_neg hk,
            if_neg (fun hh => hk (by rw [h0, ← hh]))]
          omega
      · rw [if_neg h0]
        simp only [countLookup]
        by_cases hk : k0 = k
        · rw [if_pos hk, if_pos hk,
            if_neg (fun hh => h0 (by rw [hk, hh]))]
          omega
        · rw [if_neg hk, if_neg hk, ih]

theorem countLookup_foldl (ks : List String) (c : List (String × Nat))
    (k : String) :
    countLookup (ks.foldl bumpCount c) k = countLookup c k + ks.count k := by
  induction ks generalizing c with
  | nil => simp
  | cons k0 rest ih =>
      rw [List.foldl_cons, ih, countLookup_bumpCount, List.count_cons]
      by_cases hk : k = k0
      · subst hk
        simp only [if_pos rfl, beq_self_eq_true, if_true]
        omega
      · have h1 : (k0 == k) = false := by
          simpa using fun hh => hk hh.symm
        simp [hk, h1]

theorem firstSeenKeys_congr (l : List String) (seen seen' : List String)
    (h : ∀ x, x ∈ seen ↔ x ∈ seen') :
    firstSeenKeys seen l = firstSeenKeys seen' l := by
  induction l generalizing seen seen' with
  | nil => rfl
  | cons k rest ih =>
      simp only [firstSeenKeys]
      by_cases hk : k ∈ seen
      · rw [if_pos hk, if_pos ((h k).1 hk)]
        exact ih seen seen' h
      · rw [if_neg hk, if_neg (fun hh => hk ((h k).2 hh))]
        refine congrArg (k :: ·) (ih _ _ ?_)
        intro x
        simp [h x]

theorem foldl_bumpCount_keys (ks : List String) (c : List (String × Nat)) :
    (ks.foldl bumpCount c).map Prod.fst
      = c.map Prod.fst ++ firstSeenKeys (c.map Prod.fst) ks := by
  induction ks generalizing c with
  | nil => simp [firstSeenKeys]
  | cons k rest ih =>
      rw [List.foldl_cons, ih, bumpCount_keys]
      by_cases hk : k ∈ c.map Prod.fst
      · rw [if_pos hk]
        simp only [firstSeenKeys, if_pos hk]
      · rw [if_neg hk]
        simp only [firstSeenKeys, if_neg hk, List.append_assoc,
          List.singleton_append]
        refine congrArg _ (congrArg _ ?_)
        refine firstSeenKeys_congr rest _ _ ?_
        intro x
        simp [or_comm]

theorem maxCountVal_cons (cnt : String → Nat) (a : String) (l : List String) :
    maxCountVal cnt (a :: l) = max (cnt a) (maxCountVal cnt l) := rfl

theorem reduce_lastMaximal (cnt : String → Nat) (l : List String)
    (a : String) :
    ∃ r, l.foldl (fun x b => if cnt b < cnt x then x else b) a = r ∧
      ((a :: l).filter (fun k => cnt k == maxCountVal cnt (a :: l))).getLast?
        = some r := by
  induction l generalizing a with
  | nil =>
      refine ⟨a, rfl, ?_⟩
      have hp : (cnt a == maxCountVal cnt [a]) = true := by
        simp [maxCountVal]
      simp [List.filter_cons, hp]
  | cons b l ih =>
      by_cases hab : cnt b < cnt a
      · obtain ⟨r, hr, hlast⟩ := ih a
        refine ⟨r, ?_, ?_⟩
        · simpa [if_pos hab] using hr
        · have hM : maxCountVal cnt (a :: b :: l) = maxCountVal cnt (a :: l) := by
            simp only [maxCountVal_cons]
            omega
          rw [hM]
          have hpb : (cnt b == maxCountVal cnt (a :: l)) = false := by
            simp only [maxCountVal_cons, beq_eq_false_iff_ne, ne_eq]
            omega
          simp only [List.filter_cons, hpb, Bool.false_eq_true, if_false]
          simpa only [List.filter_cons] using hlast
      · obtain ⟨r, hr, hlast⟩ := ih b
        refine ⟨r, ?_, ?_⟩
        · simpa [if_neg hab] using hr
        · have hM : maxCountVal cnt (a :: b :: l) = maxCountVal cnt (b :: l) := by
            simp only [maxCountVal_cons]
            omega
          rw [hM]
          by_cases hpa : (cnt a == maxCountVal cnt (b :: l)) = true
          · have hpb : (cnt b == maxCountVal cnt (b :: l)) = true := by
              simp only [beq_iff_eq] at hpa ⊢
              simp only [maxCountVal_cons] at hpa ⊢
              omega
            simp only [List.filter_cons, hpa, hpb, if_true]
            rw [List.getLast?_cons_cons]
            simpa only [List.filter_cons, hpb, if_true] using hlast
          · have hpa' : (cnt a == maxCountVal cnt (b :: l)) = false := by
              simpa using hpa
            simp only [List.filter_cons, hpa', Bool.false_eq_true, if_false]
            simpa only [List.filter_cons] using hlast

theorem firstSeenKeys_subset (l : List String) (seen : List String) :
    ∀ x, x ∈ firstSeenKeys seen l → x ∈ l := by
  induction l generalizing seen with
  | nil => intro x hx; simp [firstSeenKeys] at hx
  | cons k rest ih =>
      intro x hx
      simp only [firstSeenKeys] at hx
      by_cases hk : k ∈ seen
      · rw [if_pos hk] at hx
        exact List.mem_cons_of_mem k (ih seen x hx)
      · rw [if_neg hk] at hx
        rcases List.mem_cons.mp hx with h1 | h2
        · exact h1 ▸ List.mem_cons_self k rest
        · exact List.mem_cons_of_mem k (ih (k :: seen) x h2)

/-- C1 (amended): on a non-empty descriptor list the consensus analyzer
selects the LAST `(type, path)` key, in insertion (first-seen) order,
among those tied for the greatest occurrence count — not the first — and
returns the first descriptor of the list belonging to that group. -/
theorem analyzeSystemPromptPattern_selects_last_maximal
    (ds : List LocationDescriptor) (h : ds ≠ []) :
    ∃ key d,
      lastMaximal (fun k => (ds.map structureKey).count k)
          (firstSeenKeys [] (ds.map structureKey)) = some key ∧
      analyzeSystemPromptPattern ds = some d ∧
      ds.find? (fun s => structureKey s == key) = some d := by
  have hksne : ds.map structureKey ≠ [] := by simpa using h
  obtain ⟨k0, krest, hsplit⟩ :
      ∃ k0 krest, firstSeenKeys [] (ds.map structureKey) = k0 :: krest := by
    cases hks : ds.map structureKey with
    | nil => exact absurd hks hksne
    | cons a l =>
        refine ⟨a, firstSeenKeys [a] l, ?_⟩
        simp [firstSeenKeys]
  have hcounts : ds.foldl (fun acc s => bumpCount acc (structureKey s)) []
      = (ds.map structureKey).foldl bumpCount [] :=
    (List.foldl_map structureKey bumpCount ds []).symm
  have hkeys : ((ds.map structureKey).foldl bumpCount []).map Prod.fst
      = firstSeenKeys [] (ds.map structureKey) := by
    simpa using foldl_bumpCount_keys (ds.map structureKey) []
  have hcnt : ∀ k, countLookup ((ds.map structureKey).foldl bumpCount []) k
      = (ds.map structureKey).count k := by
    intro k
    simpa [countLookup] using countLookup_foldl (ds.map structureKey) [] k
  have hfun : countLookup ((ds.map structureKey).foldl bumpCount [])
      = fun k => (ds.map structureKey).count k := funext hcnt
  obtain ⟨r, hr, hlast⟩ :=
    reduce_lastMaximal (countLookup ((ds.map structureKey).foldl bumpCount []))
      krest k0
  have hmck : mostCommonKeyOf ((ds.map structureKey).foldl bumpCount [])
      = some r := by
    unfold mostCommonKeyOf
    rw [hkeys, hsplit]
    exact congrArg some hr
  have hmemf := List.mem_of_mem_getLast? hlast
  have hrkeys : r ∈ firstSeenKeys [] (ds.map structureKey) := by
    rw [hsplit]
    exact List.mem_of_mem_filter hmemf
  have hrks : r ∈ ds.map structureKey :=
    firstSeenKeys_subset (ds.map structureKey) [] r hrkeys
  obtain ⟨d0, hd0mem, hd0key⟩ := List.mem_map.mp hrks
  have hfind : (ds.find? (fun s => structureKey s == r)).isSome := by
    rw [List.find?_isSome]
    exact ⟨d0, hd0mem, by simp [hd0key]⟩
  obtain ⟨d, hd⟩ := Option.isSome_iff_exists.mp hfind
  have hlm : lastMaximal (fun k => (ds.map structureKey).count k)
      (firstSeenKeys [] (ds.map structureKey)) = some r := by
    rw [hfun] at hlast
    rw [hsplit]
    exact hlast
  refine ⟨r, d, hlm, ?_, hd⟩
  simp only [analyzeSystemPromptPattern]
  rw [hcounts, hmck]
  exact hd

/-- C1 counterexample: two descriptors whose `(type, path)` keys are tied
at count 1.  The first maximal key in insertion order is
`nested:systemMessage`, whose representative is the first descriptor, but
the analyzer returns the second descriptor (key `nested:prompt`): the
reduce keeps the right operand on ties, so the LAST maximal key wins. -/
theorem analyzeSystemPromptPattern_tie_counterexample :
    analyzeSystemPromptPattern
        [⟨"systemMessage", "nested", "systemMessage", none, none⟩,
         ⟨"prompt", "nested", "prompt", none, none⟩]
      = some ⟨"prompt", "nested", "prompt", none, none⟩ ∧
    (⟨"prompt", "nested", "prompt", none, none⟩ : LocationDescriptor)
      ≠ ⟨"systemMessage", "nested", "systemMessage", none, none⟩ := by
  exact ⟨by decide, by decide⟩

/-- Witness for the amended C1 at a concrete non-empty input. -/
theorem analyzeSystemPromptPattern_selects_last_maximal_witness :
    ∃ key d,
      lastMaximal
          (fun k => (([⟨"prompt", "nested", "prompt", none, none⟩] :
              List LocationDescriptor).map structureKey).count k)
          (firstSeenKeys []
            (([⟨"prompt", "nested", "prompt", none, none⟩] :
              List LocationDescriptor).map structureKey)) = some key ∧
      analyzeSystemPromptPattern
          [⟨"prompt", "nested", "prompt", none, none⟩] = some d ∧
      List.find? (fun s => structureKey s == key)
          [⟨"prompt", "nested", "prompt", none, none⟩] = some d :=
  analyzeSystemPromptPattern_selects_last_maximal
    [⟨"prompt", "nested", "prompt", none, none⟩] (by simp)
